import Mathlib

/-!
Shallow embedding of the browser-launch resource layer of the nodriver
repository (src/nodriver/core/config.py and src/nodriver/core/_temp.py),
together with proofs settling the specification claims about it.

Python strings are modelled by Lean `String`; Python `in` (substring test),
`str.startswith` and `str.lower` are modelled by executable functions over
the underlying character lists.  Filesystem and process-table state that the
code observes (directory listings, socket probe outcomes, `ps` snapshots,
`mkdir` failures, archive-extraction failures, `mkdtemp` fresh names) is
passed in explicitly, so every function is total and executable.
-/

/-- Models Python `needle in hay` (substring containment). -/
def str_contains (hay needle : String) : Bool :=
  decide (needle.data <:+: hay.data)

/-- Models Python `s.startswith(p)`. -/
def str_startsWith (s p : String) : Bool :=
  p.data.isPrefixOf s.data

/-- Models Python `s.lower()` (ASCII case folding). -/
def str_lower (s : String) : String :=
  ⟨s.data.map Char.toLower⟩

/-! ## Config (src/nodriver/core/config.py) -/

/-- The fields of a `Config` object read by `Config.__call__` and
`Config.add_argument`: `self.user_data_dir`, `self.headless`, `self.sandbox`,
`self.host`, `self.port`, `self.expert`, `self._browser_args` and
`self._extensions`.  `host = ""` models `host = None` (both are falsy in the
`if self.host:` test) and `port = 0` models `port = None` likewise.
-/
structure Config where
  user_data_dir : String
  headless : Bool
  sandbox : Bool
  host : String
  port : Nat
  expert : Bool
  browser_args : List String
  extensions : List String

/-- Models `Config._default_browser_args`, in its literal source order. -/
def default_browser_args : List String :=
  ["--remote-allow-origins=*",
   "--no-first-run",
   "--no-service-autorun",
   "--no-default-browser-check",
   "--homepage=about:blank",
   "--no-pings",
   "--password-store=basic",
   "--disable-infobars",
   "--disable-breakpad",
   "--disable-dev-shm-usage",
   "--disable-session-crashed-bubble",
   "--disable-search-engine-choice-screen"]

/-- Models `Config.__call__`.  Each `let args := ...` line mirrors one statement of the
source; `args.extend([arg for arg in self._browser_args if arg not in args])`
evaluates its membership test against the list as it stands before the
extension, which the `let`-binding reproduces.
-/
def config_call (c : Config) : List String :=
  let args := default_browser_args
  let args := args ++ ["--user-data-dir=" ++ c.user_data_dir]
  let args := args ++ ["--disable-session-crashed-bubble"]
  let df := "IsolateOrigins,site-per-process"
  let df := if c.extensions.isEmpty then df
            else df ++ ",DisableLoadExtensionCommandLineSwitch"
  let args := args ++ ["--disable-features=" ++ df]
  let args :=
    if c.extensions.isEmpty then args
    else
      let args :=
        if c.browser_args.any (fun a => str_startsWith a "--load-extension") then args
        else args ++ ["--load-extension=" ++ String.intercalate "," c.extensions]
      let args :=
        if c.browser_args.any (fun a => str_startsWith a "--enable-unsafe-extension-debugging") then args
        else args ++ ["--enable-unsafe-extension-debugging"]
      args
  let args := if c.expert then args ++ ["--disable-site-isolation-trials"] else args
  let args := if c.browser_args.isEmpty then args
              else args ++ c.browser_args.filter (fun a => !(args.contains a))
  let args := if c.headless then args ++ ["--headless=new"] else args
  let args := if c.sandbox then args else args ++ ["--no-sandbox"]
  let args := if c.host.isEmpty then args
              else args ++ ["--remote-debugging-host=" ++ c.host]
  let args := if c.port = 0 then args
              else args ++ ["--remote-debugging-port=" ++ toString c.port]
  args

/-- The `--disable-features` value computed by `Config.__call__`. -/
def features_str (c : Config) : String :=
  if c.extensions.isEmpty then "IsolateOrigins,site-per-process"
  else "IsolateOrigins,site-per-process" ++ ",DisableLoadExtensionCommandLineSwitch"

/-- The extension flags `Config.__call__` appends when `self._extensions` is set. -/
def ext_flags (c : Config) : List String :=
  if c.extensions.isEmpty then []
  else
    (if c.browser_args.any (fun a => str_startsWith a "--load-extension") then []
     else ["--load-extension=" ++ String.intercalate "," c.extensions]) ++
    (if c.browser_args.any (fun a => str_startsWith a "--enable-unsafe-extension-debugging") then []
     else ["--enable-unsafe-extension-debugging"])

/-- The expert-mode flag block of `Config.__call__`. -/
def expert_flags (c : Config) : List String :=
  if c.expert then ["--disable-site-isolation-trials"] else []

/-- Everything `Config.__call__` accumulates before user-supplied extra flags. -/
def pre_args (c : Config) : List String :=
  default_browser_args ++
  ["--user-data-dir=" ++ c.user_data_dir,
   "--disable-session-crashed-bubble",
   "--disable-features=" ++ features_str c] ++
  ext_flags c ++ expert_flags c

/-- The user-supplied extra flags that survive the `arg not in args` filter. -/
def user_extra (c : Config) : List String :=
  c.browser_args.filter (fun a => !((pre_args c).contains a))

/-- The conditional trailing flags of `Config.__call__`. -/
def tail_flags (c : Config) : List String :=
  (if c.headless then ["--headless=new"] else []) ++
  (if c.sandbox then [] else ["--no-sandbox"]) ++
  (if c.host.isEmpty then [] else ["--remote-debugging-host=" ++ c.host]) ++
  (if c.port = 0 then [] else ["--remote-debugging-port=" ++ toString c.port])

/-- The reserved substrings checked by `Config.add_argument`. -/
def reserved_substrings : List String :=
  ["headless", "data-dir", "data_dir", "no-sandbox", "no_sandbox", "lang"]

/-- Models `Config.add_argument`: raises `ValueError` (modelled as `.error`) when the
lowercased argument contains a reserved substring, otherwise appends the
argument to `self._browser_args`.
-/
def add_argument (c : Config) (arg : String) : Except String Config :=
  if reserved_substrings.any (fun x => str_contains (str_lower arg) x) then
    Except.error ("\"" ++ arg ++ "\" not allowed. please use one of the attributes of the Config object to set it")
  else
    Except.ok { c with browser_args := c.browser_args ++ [arg] }

/-- The sandbox correction in `Config.__init__`: on a POSIX platform, when
running as root and `sandbox` is requested, sandbox mode is forced off.
-/
def config_init_sandbox (posix root sandbox : Bool) : Bool :=
  if posix && root && sandbox then false else sandbox

/-- Models `Config.__init__` restricted to the fields `Config.__call__` reads. -/
def config_init (posix root : Bool) (user_data_dir : String) (headless sandbox : Bool)
    (host : String) (port : Nat) (expert : Bool) (browser_args : List String) : Config :=
  { user_data_dir := user_data_dir
    headless := headless
    sandbox := config_init_sandbox posix root sandbox
    host := host
    port := port
    expert := expert
    browser_args := browser_args
    extensions := [] }

/-- What `Config.add_extension` observes about the path it is given: whether it
exists, whether it is a directory, and the parent directories of the matches
of `path.rglob("manifest.*")` in traversal order.
-/
structure ExtPathInfo where
  path : String
  pathExists : Bool
  isDir : Bool
  manifestParents : List String

/-- Models `Config.add_extension`: missing paths raise `FileNotFoundError`; a directory
is normalized by `for item in path.rglob("manifest.*"): path = item.parent`,
which keeps the parent of the final match; files are stored as-is.
Returns the stored extension source.
-/
def add_extension (p : ExtPathInfo) : Except String String :=
  if !p.pathExists then
    Except.error ("could not find anything here: " ++ p.path)
  else if p.isDir then
    Except.ok (p.manifestParents.foldl (fun _ m => m) p.path)
  else
    Except.ok p.path

/-! ## Temp-directory namespace (src/nodriver/core/_temp.py) -/

/-- The filesystem behaviour `nodriver_temp_base` and `nodriver_temp_dir` can
observe: for each path, whether `mkdir(parents=True, exist_ok=True)` on it
raises.
-/
structure FsOracle where
  mkdirFails : String → Bool

/-- Models `nodriver_temp_base`: `<system-temp>/nodriver`, falling back to the raw
system temp directory when creating the namespace directory fails.  Total by
construction: every exception branch of the source is one of the `if` arms.
-/
def nodriver_temp_base (tmp : String) (o : FsOracle) : String :=
  let base := tmp ++ "/nodriver"
  if o.mkdirFails base then tmp else base

/-- Models `nodriver_temp_dir(name)`: the named child of the namespace root, returning
`nodriver_temp_base()` itself when creating the child fails.
-/
def nodriver_temp_dir (tmp : String) (o : FsOracle) (name : String) : String :=
  let base := nodriver_temp_base tmp o ++ "/" ++ name
  if o.mkdirFails base then nodriver_temp_base tmp o else base

/-! ## Stale singleton-lock reaper (src/nodriver/core/_temp.py) -/

/-- The possible outcomes of one `_socket_is_listening` probe, corresponding to
its branches: `stat` raising `FileNotFoundError`, `stat` raising anything
else, a non-socket stat mode, and `connect` succeeding, failing with
`ECONNREFUSED`/`ENOENT`, or failing any other way (timeout, permissions).
-/
inductive ProbeOutcome where
  | statMissing
  | statError
  | notSocket
  | connSuccess
  | connRefused
  | connOther
deriving DecidableEq

/-- Models `_socket_is_listening`, as a function of the probe outcome. -/
def socket_is_listening : ProbeOutcome → Bool
  | .statMissing => false
  | .statError => true
  | .notSocket => true
  | .connSuccess => true
  | .connRefused => false
  | .connOther => true

/-- The vendor name patterns of `_iter_chromium_singleton_dirs`. -/
def singleton_name_patterns : List String :=
  ["org.chromium.Chromium.",
   ".org.chromium.Chromium.",
   "com.google.Chrome.",
   ".com.google.Chrome."]

/-- What `cleanup_chromium_singleton_dirs` observes about one entry of the system
temp directory: its name, whether it is a (non-symlink) directory, whether
`<entry>/SingletonSocket` exists at enumeration time, and the outcome of the
i-th liveness probe of that socket.
-/
structure TempEntry where
  name : String
  isDir : Bool
  hasSingletonSocket : Bool
  probes : Nat → ProbeOutcome

/-- The filter applied by `_iter_chromium_singleton_dirs` to each entry. -/
def is_singleton_candidate (e : TempEntry) : Bool :=
  e.isDir && singleton_name_patterns.any (fun p => str_startsWith e.name p) &&
    e.hasSingletonSocket

/-- The retry loop of `cleanup_chromium_singleton_dirs`: starting at attempt `i`
with `fuel` attempts left, report whether some attempt finds the socket
listening (the loop breaks at the first active probe).
-/
def probe_finds_active (e : TempEntry) (i : Nat) : Nat → Bool
  | 0 => false
  | fuel + 1 =>
    if socket_is_listening (e.probes i) then true
    else probe_finds_active e (i + 1) fuel

/-- Whether `cleanup_chromium_singleton_dirs(retries=retries)` deletes the
directory of entry `e`: it must pass the iterator filter and every one of the
`max 1 retries` probe attempts must report inactive.
-/
def singleton_dir_removed (retries : Nat) (e : TempEntry) : Bool :=
  is_singleton_candidate e && !(probe_finds_active e 0 (max 1 retries))

/-- Models `cleanup_chromium_singleton_dirs` over a snapshot of the system temp
directory listing: the sublist of entries whose directories it deletes.
-/
def cleanup_chromium_singleton_dirs (retries : Nat) (entries : List TempEntry) :
    List TempEntry :=
  entries.filter (fun e => singleton_dir_removed retries e)

/-! ## Legacy uc_ profile reaper (src/nodriver/core/_temp.py) -/

/-- What `cleanup_legacy_uc_profile_dirs` observes about one entry of the system
temp directory.  `ageResult` is `now - st.st_mtime` (in seconds, as an exact
rational), or `none` when `entry.stat` raises; `isEmptyDir` and
`looksLikeProfile` are the results of `_is_empty_dir` and
`_looks_like_chrome_user_data_dir`; `path` and `realpath` are `entry.path`
and `os.path.realpath(entry.path)`.
-/
structure LegacyEntry where
  name : String
  isDir : Bool
  path : String
  realpath : String
  ageResult : Option Rat
  isEmptyDir : Bool
  looksLikeProfile : Bool

/-- The candidate age: on stat failure the code assumes `min_age_seconds`. -/
def legacy_age (e : LegacyEntry) (min_age : Rat) : Rat :=
  e.ageResult.getD min_age

/-- The four process-table needles built for a candidate directory. -/
def user_data_dir_needles (e : LegacyEntry) : List String :=
  ["--user-data-dir=" ++ e.path,
   "--user-data-dir=" ++ e.realpath,
   "--user-data-dir " ++ e.path,
   "--user-data-dir " ++ e.realpath]

/-- Whether `cleanup_legacy_uc_profile_dirs(min_age_seconds)` deletes entry `e`,
given the process-table snapshot `ps_out` returned by
`_posix_ps_command_output`.  Each guard mirrors one `continue` of the source;
the needle check only runs when the snapshot is non-empty (`if ps_out:`).
-/
def legacy_dir_removed (min_age : Rat) (ps_out : String) (e : LegacyEntry) : Bool :=
  if !e.isDir then false
  else if !(str_startsWith e.name "uc_") then false
  else if legacy_age e min_age < min_age then false
  else if !(e.isEmptyDir || e.looksLikeProfile) then false
  else if (if ps_out.isEmpty then false
           else (user_data_dir_needles e).any (fun n => str_contains ps_out n)) then false
  else true

/-- Models `cleanup_legacy_uc_profile_dirs` over a snapshot of the system temp
directory listing: the sublist of entries it deletes.
-/
def cleanup_legacy_uc_profile_dirs (min_age : Rat) (ps_out : String)
    (entries : List LegacyEntry) : List LegacyEntry :=
  entries.filter (fun e => legacy_dir_removed min_age ps_out e)

/-! ## Extension staging (Config._prepare_extensions / cleanup_extensions) -/

/-- One element of `Config._extension_sources`: a directory or a packaged file. -/
inductive ExtSource where
  | dir (path : String)
  | file (path : String)
deriving DecidableEq

/-- A filesystem action performed while staging: `mkdtemp` or `rmtree`. -/
inductive FsEvent where
  | create (path : String)
  | remove (path : String)
deriving DecidableEq

/-- The staging state of a `Config`: `_extension_sources`, the tracked set
`_temp_extension_dirs` (modelled as a list), and `_extensions`.
-/
structure ExtStageState where
  sources : List ExtSource
  temp_dirs : List String
  extensions : List String

/-- Models `Config.cleanup_extensions`: removes every tracked staged directory, clears
the tracking set and drops the prepared-extension list.  Returns the new
state and the filesystem actions performed.
-/
def cleanup_extensions (s : ExtStageState) : ExtStageState × List FsEvent :=
  ({ s with temp_dirs := [], extensions := [] }, s.temp_dirs.map FsEvent.remove)

/-- The result of the per-source loop of `Config._prepare_extensions`. -/
structure StageOutcome where
  ok : Bool
  prepared : List String
  tracked : List String
  events : List FsEvent

/-- The per-source loop of `Config._prepare_extensions`.  `extractOk p` is
whether `zipfile.ZipFile(p).extractall` succeeds; `fresh` supplies the
unique directory names produced by `tempfile.mkdtemp`.  A directory source
passes through unchanged; a file source first creates its temp directory,
and on extraction failure removes that directory again and aborts the loop
without tracking it (the exception propagates).
-/
def stage_sources (extractOk : String → Bool) :
    List ExtSource → List String → StageOutcome
  | [], _ => ⟨true, [], [], []⟩
  | .dir p :: rest, fresh =>
    let r := stage_sources extractOk rest fresh
    ⟨r.ok, p :: r.prepared, r.tracked, r.events⟩
  | .file p :: rest, fresh =>
    let tf := fresh.headD ""
    if extractOk p then
      let r := stage_sources extractOk rest fresh.tail
      ⟨r.ok, tf :: r.prepared, tf :: r.tracked, FsEvent.create tf :: r.events⟩
    else
      ⟨false, [], [], [FsEvent.create tf, FsEvent.remove tf]⟩

/-- Models `Config._prepare_extensions`: tears down the previous staging via
`cleanup_extensions`, then stages every source.  Returns the new state, the
filesystem actions in order, and whether the call returned normally
(`false` models the extraction exception propagating to the caller; in that
case `self._extensions` keeps the value `cleanup_extensions` left).
-/
def prepare_extensions (extractOk : String → Bool) (s : ExtStageState)
    (fresh : List String) : ExtStageState × List FsEvent × Bool :=
  let cleaned := cleanup_extensions s
  let r := stage_sources extractOk s.sources fresh
  if r.ok then
    ({ cleaned.1 with temp_dirs := r.tracked, extensions := r.prepared },
      cleaned.2 ++ r.events, true)
  else
    ({ cleaned.1 with temp_dirs := r.tracked }, cleaned.2 ++ r.events, false)

/-- The staged directories still on disk after a prefix of the event trace. -/
def live_dirs (evs : List FsEvent) : List String :=
  evs.foldl
    (fun acc e =>
      match e with
      | .create d => acc ++ [d]
      | .remove d => acc.erase d) []


/-! ## Concrete states used by counterexamples and witnesses -/

/-- A default-constructed `Config`: every keyword left at its default. -/
def base_config : Config :=
  { user_data_dir := "/tmp/nodriver/profiles/uc_w3c9"
    headless := false
    sandbox := true
    host := ""
    port := 0
    expert := false
    browser_args := []
    extensions := [] }

/-- A default `Config` carrying one user-supplied extra flag. -/
def zcfg : Config := { base_config with browser_args := ["--zzz"] }

/-- A vendor-prefixed temp entry whose `SingletonSocket` does not exist. -/
def no_socket_entry : TempEntry :=
  { name := "org.chromium.Chromium.h7Kq2a"
    isDir := true
    hasSingletonSocket := false
    probes := fun _ => ProbeOutcome.statMissing }

/-- A legacy profile directory referenced by a live process command line. -/
def live_legacy_entry : LegacyEntry :=
  { name := "uc_k2d8"
    isDir := true
    path := "/tmp/uc_k2d8"
    realpath := "/tmp/uc_k2d8"
    ageResult := some 500
    isEmptyDir := false
    looksLikeProfile := true }

/-- A filesystem on which creating `/tmp/nodriver` fails (e.g. permissions). -/
def failing_oracle : FsOracle :=
  { mkdirFails := fun s => s == "/tmp/nodriver" }

/-- A directory tree holding two manifest files in different subdirectories. -/
def two_manifest_dir : ExtPathInfo :=
  { path := "/ext"
    pathExists := true
    isDir := true
    manifestParents := ["/ext/a", "/ext/b"] }

/-! ## String helper lemmas -/

theorem string_data_append (s t : String) : (s ++ t).data = s.data ++ t.data := rfl

theorem string_eq_of_data {s t : String} (h : s.data = t.data) : s = t := by
  cases s; cases t; exact congrArg String.mk h

theorem string_append_empty (s : String) : s ++ "" = s := by
  cases s; simp [String.ext_iff]

/-- Two lists neither of which is a prefix of the other stay different under
arbitrary right extension. -/
theorem append_right_ne {α : Type} (p q a b : List α)
    (h1 : ¬ p <+: q) (h2 : ¬ q <+: p) : p ++ a ≠ q ++ b := by
  intro he
  rcases Nat.le_total p.length q.length with hle | hle
  · apply h1
    have hp : p <+: q ++ b := he ▸ List.prefix_append p a
    exact List.prefix_of_prefix_length_le hp ( List.prefix_append q b) hle
  · apply h2
    have hq : q <+: p ++ a := he ▸ List.prefix_append q b
    exact List.prefix_of_prefix_length_le hq ( List.prefix_append p a) hle

/-- String version of `append_right_ne`, with the independence premise as a
decidable boolean. -/
theorem flag_ne_flag (p q a b : String)
    (h : (p.data.isPrefixOf q.data || q.data.isPrefixOf p.data) = false) :
    p ++ a ≠ q ++ b := by
  intro he
  have hd : p.data ++ a.data = q.data ++ b.data := by
    rw [← string_data_append, ← string_data_append, he]
  rw [Bool.or_eq_false_iff] at h
  refine append_right_ne p.data q.data a.data b.data ?_ ?_ hd
  · intro hpq
    have := ( List.isPrefixOf_iff_prefix).mpr hpq
    simp [this] at h
  · intro hqp
    have := ( List.isPrefixOf_iff_prefix).mpr hqp
    simp [this] at h

/-- A flag built from the prefix `p` differs from a literal `q` whenever
neither of `p`, `q` is a string prefix of the other. -/
theorem flag_ne_lit (p a q : String)
    (h : (p.data.isPrefixOf q.data || q.data.isPrefixOf p.data) = false) :
    p ++ a ≠ q := by
  have := flag_ne_flag p q a "" h
  rwa [string_append_empty] at this

theorem lit_ne_flag (q p a : String)
    (h : (p.data.isPrefixOf q.data || q.data.isPrefixOf p.data) = false) :
    q ≠ p ++ a :=
  (flag_ne_lit p a q h).symm

/-- A flag built from the prefix `p` cannot occur in a list none of whose
members extends `p`. -/
theorem flag_not_mem (p a : String) (L : List String)
    (h : L.all (fun d => !(p.data.isPrefixOf d.data)) = true) : p ++ a ∉ L := by
  intro hm
  have hd := List.all_eq_true.mp h _ hm
  rw [string_data_append] at hd
  have : p.data.isPrefixOf (p.data ++ a.data) = true :=
    ( List.isPrefixOf_iff_prefix).mpr ( List.prefix_append p.data a.data)
  rw [this] at hd
  simp at hd

theorem startsWith_append (p a : String) : str_startsWith (p ++ a) p = true := by
  have : p.data.isPrefixOf (p ++ a).data = true := by
    rw [string_data_append]
    exact ( List.isPrefixOf_iff_prefix).mpr ( List.prefix_append p.data a.data)
  simp [str_startsWith, this]

/-! ## Decomposition of Config.__call__ -/

theorem app_if {b : Prop} [Decidable b] (l x : List String) :
    (if b then l ++ x else l) = l ++ (if b then x else []) := by
  split <;> simp

theorem app_if_not {b : Prop} [Decidable b] (l x : List String) :
    (if b then l else l ++ x) = l ++ (if b then [] else x) := by
  split <;> simp

theorem ite_app_app {b : Prop} [Decidable b] (l x y : List String) :
    (if b then l ++ x else l ++ y) = l ++ (if b then x else y) := by
  split <;> rfl

theorem ite_cons_cons {b : Prop} [Decidable b] (x : String) (l₁ l₂ : List String) :
    (if b then x :: l₁ else x :: l₂) = x :: (if b then l₁ else l₂) := by
  split <;> rfl

theorem ite_isEmpty_filter (l : List String) (p : String → Bool) :
    (if l.isEmpty then ([] : List String) else l.filter p) = l.filter p := by
  cases l <;> simp

/-- Models `Config.__call__` produces: the static defaults, then the derived flags,
then the user-supplied extras not already present, then the conditional
trailing flags. -/
theorem config_call_eq (c : Config) :
    config_call c = pre_args c ++ (user_extra c ++ tail_flags c) := by
  simp only [config_call, pre_args, user_extra, tail_flags, ext_flags, features_str,
    expert_flags, app_if, app_if_not, ite_app_app, ite_cons_cons, ite_isEmpty_filter,
    List.append_assoc, List.singleton_append, List.cons_append, List.nil_append,
    List.append_nil]

/-! ## Membership structure of the Config.__call__ blocks -/

theorem mem_ext_flags {c : Config} {s : String} (h : s ∈ ext_flags c) :
    s = "--load-extension=" ++ String.intercalate "," c.extensions ∨
    s = "--enable-unsafe-extension-debugging" := by
  unfold ext_flags at h
  split at h
  · simp at h
  · rcases List.mem_append.mp h with h | h
    · left
      split at h <;> simp_all
    · right
      split at h <;> simp_all

theorem mem_expert_flags {c : Config} {s : String} (h : s ∈ expert_flags c) :
    s = "--disable-site-isolation-trials" := by
  unfold expert_flags at h
  split at h <;> simp_all

theorem mem_tail_flags {c : Config} {s : String} (h : s ∈ tail_flags c) :
    s = "--headless=new" ∨ s = "--no-sandbox" ∨
    s = "--remote-debugging-host=" ++ c.host ∨
    s = "--remote-debugging-port=" ++ toString c.port := by
  unfold tail_flags at h
  rcases List.mem_append.mp h with h | h
  · rcases List.mem_append.mp h with h | h
    · rcases List.mem_append.mp h with h | h
      · left
        split at h <;> simp_all
      · right; left
        split at h <;> simp_all
    · right; right; left
      split at h <;> simp_all
  · right; right; right
    split at h <;> simp_all

theorem mem_pre_args {c : Config} {s : String} (h : s ∈ pre_args c) :
    s ∈ default_browser_args ∨
    s = "--user-data-dir=" ++ c.user_data_dir ∨
    s = "--disable-session-crashed-bubble" ∨
    s = "--disable-features=" ++ features_str c ∨
    s ∈ ext_flags c ∨ s ∈ expert_flags c := by
  unfold pre_args at h
  rcases List.mem_append.mp h with h | h
  · rcases List.mem_append.mp h with h | h
    · rcases List.mem_append.mp h with h | h
      · exact Or.inl h
      · rcases List.mem_cons.mp h with h | h
        · exact Or.inr (Or.inl h)
        · rcases List.mem_cons.mp h with h | h
          · exact Or.inr (Or.inr (Or.inl h))
          · rcases List.mem_cons.mp h with h | h
            · exact Or.inr (Or.inr (Or.inr (Or.inl h)))
            · simp at h
    · exact Or.inr (Or.inr (Or.inr (Or.inr (Or.inl h))))
  · exact Or.inr (Or.inr (Or.inr (Or.inr (Or.inr h))))

theorem mem_user_extra {c : Config} {s : String} (h : s ∈ user_extra c) :
    s ∈ c.browser_args ∧ s ∉ pre_args c := by
  unfold user_extra at h
  have h2 := List.mem_filter.mp h
  refine ⟨h2.1, ?_⟩
  simpa using h2.2

/-! ## Distinctness facts for Config.__call__ flags -/

/-- A flag built by extending the prefix `p` occurs nowhere in the block of
`Config.__call__` preceding the user-supplied extras, provided `p` is
string-prefix-independent of every flag shape in that block. -/
theorem flag_not_mem_pre (c : Config) (p a : String)
    (hd : default_browser_args.all (fun d => !(p.data.isPrefixOf d.data)) = true)
    (h1 : (p.data.isPrefixOf "--user-data-dir=".data ||
           "--user-data-dir=".data.isPrefixOf p.data) = false)
    (h2 : (p.data.isPrefixOf "--disable-session-crashed-bubble".data ||
           "--disable-session-crashed-bubble".data.isPrefixOf p.data) = false)
    (h3 : (p.data.isPrefixOf "--disable-features=".data ||
           "--disable-features=".data.isPrefixOf p.data) = false)
    (h4 : (p.data.isPrefixOf "--load-extension=".data ||
           "--load-extension=".data.isPrefixOf p.data) = false)
    (h5 : (p.data.isPrefixOf "--enable-unsafe-extension-debugging".data ||
           "--enable-unsafe-extension-debugging".data.isPrefixOf p.data) = false)
    (h6 : (p.data.isPrefixOf "--disable-site-isolation-trials".data ||
           "--disable-site-isolation-trials".data.isPrefixOf p.data) = false) :
    p ++ a ∉ pre_args c := by
  intro hm
  rcases mem_pre_args hm with h | h | h | h | h | h
  · exact flag_not_mem p a _ hd h
  · exact flag_ne_flag p "--user-data-dir=" a c.user_data_dir h1 h
  · exact flag_ne_lit p a _ h2 h
  · exact flag_ne_flag p "--disable-features=" a (features_str c) h3 h
  · rcases mem_ext_flags h with h | h
    · exact flag_ne_flag p "--load-extension=" a _ h4 h
    · exact flag_ne_lit p a _ h5 h
  · exact flag_ne_lit p a _ h6 (mem_expert_flags h)

/-- Literal-string version of `flag_not_mem_pre`. -/
theorem lit_not_mem_pre (c : Config) (q : String)
    (hd : default_browser_args.all (fun d => !(q.data.isPrefixOf d.data)) = true)
    (h1 : (q.data.isPrefixOf "--user-data-dir=".data ||
           "--user-data-dir=".data.isPrefixOf q.data) = false)
    (h2 : (q.data.isPrefixOf "--disable-session-crashed-bubble".data ||
           "--disable-session-crashed-bubble".data.isPrefixOf q.data) = false)
    (h3 : (q.data.isPrefixOf "--disable-features=".data ||
           "--disable-features=".data.isPrefixOf q.data) = false)
    (h4 : (q.data.isPrefixOf "--load-extension=".data ||
           "--load-extension=".data.isPrefixOf q.data) = false)
    (h5 : (q.data.isPrefixOf "--enable-unsafe-extension-debugging".data ||
           "--enable-unsafe-extension-debugging".data.isPrefixOf q.data) = false)
    (h6 : (q.data.isPrefixOf "--disable-site-isolation-trials".data ||
           "--disable-site-isolation-trials".data.isPrefixOf q.data) = false) :
    q ∉ pre_args c := by
  have := flag_not_mem_pre c q "" hd h1 h2 h3 h4 h5 h6
  rwa [string_append_empty] at this

theorem headless_not_mem_pre (c : Config) : "--headless=new" ∉ pre_args c :=
  lit_not_mem_pre c _ (by decide) (by decide) (by decide) (by decide) (by decide)
    (by decide) (by decide)

theorem no_sandbox_not_mem_pre (c : Config) : "--no-sandbox" ∉ pre_args c :=
  lit_not_mem_pre c _ (by decide) (by decide) (by decide) (by decide) (by decide)
    (by decide) (by decide)

theorem host_flag_not_mem_pre (c : Config) (x : String) :
    "--remote-debugging-host=" ++ x ∉ pre_args c :=
  flag_not_mem_pre c _ _ (by decide) (by decide) (by decide) (by decide) (by decide)
    (by decide) (by decide)

theorem port_flag_not_mem_pre (c : Config) (x : String) :
    "--remote-debugging-port=" ++ x ∉ pre_args c :=
  flag_not_mem_pre c _ _ (by decide) (by decide) (by decide) (by decide) (by decide)
    (by decide) (by decide)

theorem default_browser_args_nodup : default_browser_args.Nodup := by decide

theorem ext_flags_nodup (c : Config) : (ext_flags c).Nodup := by
  have hne : "--load-extension=" ++ String.intercalate "," c.extensions ≠
      "--enable-unsafe-extension-debugging" :=
    flag_ne_lit "--load-extension=" _ _ (by decide)
  unfold ext_flags
  split
  · exact List.nodup_nil
  · split <;> split <;> simp_all

theorem tail_flags_nodup (c : Config) : (tail_flags c).Nodup := by
  have e1 : "--headless=new" ≠ "--no-sandbox" := by decide
  have e2 : "--headless=new" ≠ "--remote-debugging-host=" ++ c.host :=
    lit_ne_flag _ "--remote-debugging-host=" _ (by decide)
  have e3 : "--headless=new" ≠ "--remote-debugging-port=" ++ toString c.port :=
    lit_ne_flag _ "--remote-debugging-port=" _ (by decide)
  have e4 : "--no-sandbox" ≠ "--remote-debugging-host=" ++ c.host :=
    lit_ne_flag _ "--remote-debugging-host=" _ (by decide)
  have e5 : "--no-sandbox" ≠ "--remote-debugging-port=" ++ toString c.port :=
    lit_ne_flag _ "--remote-debugging-port=" _ (by decide)
  have e6 : "--remote-debugging-host=" ++ c.host ≠
      "--remote-debugging-port=" ++ toString c.port :=
    flag_ne_flag "--remote-debugging-host=" "--remote-debugging-port=" _ _ (by decide)
  unfold tail_flags
  split <;> split <;> split <;> split <;> simp_all

theorem expert_flags_nodup (c : Config) : (expert_flags c).Nodup := by
  unfold expert_flags
  split <;> simp

/-- Models `--disable-session-crashed-bubble` occurs exactly twice before the
user-supplied extras: once among the static defaults and once re-appended. -/
theorem count_pre_args_bubble (c : Config) :
    (pre_args c).count "--disable-session-crashed-bubble" = 2 := by
  have hbu : "--disable-session-crashed-bubble" ≠ "--user-data-dir=" ++ c.user_data_dir :=
    lit_ne_flag _ "--user-data-dir=" _ (by decide)
  have hbf : "--disable-session-crashed-bubble" ≠ "--disable-features=" ++ features_str c :=
    lit_ne_flag _ "--disable-features=" _ (by decide)
  have c1 : default_browser_args.count "--disable-session-crashed-bubble" = 1 := by decide
  have c2 : (["--user-data-dir=" ++ c.user_data_dir,
      "--disable-session-crashed-bubble",
      "--disable-features=" ++ features_str c] :
        List String).count "--disable-session-crashed-bubble" = 1 := by
    simp [List.count_cons, hbu, hbf]
  have c3 : (ext_flags c).count "--disable-session-crashed-bubble" = 0 := by
    refine List.count_eq_zero.mpr fun hm => ?_
    rcases mem_ext_flags hm with h | h
    · exact lit_ne_flag _ "--load-extension=" _ (by decide) h
    · simp at h
  have c4 : (expert_flags c).count "--disable-session-crashed-bubble" = 0 := by
    refine List.count_eq_zero.mpr fun hm => ?_
    have := mem_expert_flags hm
    simp at this
  simp only [pre_args, List.count_append]
  omega

/-- Every string other than `--disable-session-crashed-bubble` occurs at most
once before the user-supplied extras. -/
theorem count_pre_args_le_one (c : Config) (s : String)
    (hs : s ≠ "--disable-session-crashed-bubble") : (pre_args c).count s ≤ 1 := by
  have hub : "--user-data-dir=" ++ c.user_data_dir ≠ "--disable-session-crashed-bubble" :=
    flag_ne_lit "--user-data-dir=" _ _ (by decide)
  have huf : "--user-data-dir=" ++ c.user_data_dir ≠ "--disable-features=" ++ features_str c :=
    flag_ne_flag "--user-data-dir=" "--disable-features=" _ _ (by decide)
  have hbf : "--disable-session-crashed-bubble" ≠ "--disable-features=" ++ features_str c :=
    lit_ne_flag _ "--disable-features=" _ (by decide)
  simp only [pre_args, List.count_append]
  by_cases hd : s ∈ default_browser_args
  · have c1 : default_browser_args.count s ≤ 1 :=
      List.nodup_iff_count_le_one.mp default_browser_args_nodup s
    have c2 : (["--user-data-dir=" ++ c.user_data_dir,
        "--disable-session-crashed-bubble",
        "--disable-features=" ++ features_str c] : List String).count s = 0 := by
      refine List.count_eq_zero.mpr fun hm => ?_
      rcases List.mem_cons.mp hm with h | hm
      · subst h
        exact flag_not_mem "--user-data-dir=" c.user_data_dir _ (by decide) hd
      rcases List.mem_cons.mp hm with h | hm
      · exact hs h
      rcases List.mem_cons.mp hm with h | hm
      · subst h
        exact flag_not_mem "--disable-features=" (features_str c) _ (by decide) hd
      · simp at hm
    have c3 : (ext_flags c).count s = 0 := by
      refine List.count_eq_zero.mpr fun hm => ?_
      rcases mem_ext_flags hm with h | h
      · subst h
        exact flag_not_mem "--load-extension=" _ _ (by decide) hd
      · subst h
        exact (by decide : "--enable-unsafe-extension-debugging" ∉ default_browser_args) hd
    have c4 : (expert_flags c).count s = 0 := by
      refine List.count_eq_zero.mpr fun hm => ?_
      have h := mem_expert_flags hm
      subst h
      exact (by decide : "--disable-site-isolation-trials" ∉ default_browser_args) hd
    omega
  · have c1 : default_browser_args.count s = 0 := List.count_eq_zero.mpr hd
    have hmidnodup : (["--user-data-dir=" ++ c.user_data_dir,
        "--disable-session-crashed-bubble",
        "--disable-features=" ++ features_str c] : List String).Nodup := by
      simp [List.nodup_cons, hub, huf, hbf]
    by_cases hm : s ∈ (["--user-data-dir=" ++ c.user_data_dir,
        "--disable-session-crashed-bubble",
        "--disable-features=" ++ features_str c] : List String)
    · have c2 : (["--user-data-dir=" ++ c.user_data_dir,
          "--disable-session-crashed-bubble",
          "--disable-features=" ++ features_str c] : List String).count s ≤ 1 :=
        List.nodup_iff_count_le_one.mp hmidnodup s
      have hsu : s = "--user-data-dir=" ++ c.user_data_dir ∨
          s = "--disable-features=" ++ features_str c := by
        rcases List.mem_cons.mp hm with h | hm
        · exact Or.inl h
        rcases List.mem_cons.mp hm with h | hm
        · exact absurd h hs
        rcases List.mem_cons.mp hm with h | hm
        · exact Or.inr h
        · simp at hm
      have c3 : (ext_flags c).count s = 0 := by
        refine List.count_eq_zero.mpr fun hme => ?_
        rcases mem_ext_flags hme with h | h <;> rcases hsu with h2 | h2 <;> subst h2
        · exact flag_ne_flag "--user-data-dir=" "--load-extension=" _ _ (by decide) h
        · exact flag_ne_flag "--disable-features=" "--load-extension=" _ _ (by decide) h
        · exact flag_ne_lit "--user-data-dir=" _ _ (by decide) h
        · exact flag_ne_lit "--disable-features=" _ _ (by decide) h
      have c4 : (expert_flags c).count s = 0 := by
        refine List.count_eq_zero.mpr fun hme => ?_
        have h := mem_expert_flags hme
        rcases hsu with h2 | h2 <;> subst h2
        · exact flag_ne_lit "--user-data-dir=" _ _ (by decide) h
        · exact flag_ne_lit "--disable-features=" _ _ (by decide) h
      omega
    · have c2 : (["--user-data-dir=" ++ c.user_data_dir,
          "--disable-session-crashed-bubble",
          "--disable-features=" ++ features_str c] : List String).count s = 0 :=
        List.count_eq_zero.mpr hm
      by_cases he : s ∈ ext_flags c
      · have c3 : (ext_flags c).count s ≤ 1 :=
          List.nodup_iff_count_le_one.mp (ext_flags_nodup c) s
        have c4 : (expert_flags c).count s = 0 := by
          refine List.count_eq_zero.mpr fun hme => ?_
          have h := mem_expert_flags hme
          subst h
          rcases mem_ext_flags he with h2 | h2
          · exact lit_ne_flag _ "--load-extension=" _ (by decide) h2
          · simp at h2
        omega
      · have c3 : (ext_flags c).count s = 0 := List.count_eq_zero.mpr he
        have c4 : (expert_flags c).count s ≤ 1 :=
          List.nodup_iff_count_le_one.mp (expert_flags_nodup c) s
        omega

/-- C1 (corrected).  The argument list returned by `Config.__call__` contains no
duplicate flag, with one exception the counterexample forces:
`--disable-session-crashed-bubble` always occurs exactly twice (once among
the static defaults and once re-appended unconditionally), and the guarantee
for the user-supplied extra arguments additionally requires that they are
themselves duplicate-free and do not repeat the conditional trailing flags
(`--headless=new`, `--no-sandbox`, `--remote-debugging-host=...`,
`--remote-debugging-port=...`), which the code appends after its
deduplicating filter has already run.
-/
theorem c1_amended_no_duplicates (c : Config)
    (hnd : c.browser_args.Nodup)
    (hhl : "--headless=new" ∉ c.browser_args)
    (hns : "--no-sandbox" ∉ c.browser_args)
    (hhost : ∀ a ∈ c.browser_args, str_startsWith a "--remote-debugging-host=" = false)
    (hport : ∀ a ∈ c.browser_args, str_startsWith a "--remote-debugging-port=" = false) :
    (config_call c).count "--disable-session-crashed-bubble" = 2 ∧
    ∀ s : String, s ≠ "--disable-session-crashed-bubble" →
      (config_call c).count s ≤ 1 := by
  constructor
  · rw [config_call_eq, List.count_append, List.count_append]
    have c1 := count_pre_args_bubble c
    have hbp : "--disable-session-crashed-bubble" ∈ pre_args c := by
      simp [pre_args]
    have c2 : (user_extra c).count "--disable-session-crashed-bubble" = 0 :=
      List.count_eq_zero.mpr fun hm => (mem_user_extra hm).2 hbp
    have c3 : (tail_flags c).count "--disable-session-crashed-bubble" = 0 := by
      refine List.count_eq_zero.mpr fun hm => ?_
      rcases mem_tail_flags hm with h | h | h | h
      · simp at h
      · simp at h
      · exact lit_ne_flag _ "--remote-debugging-host=" _ (by decide) h
      · exact lit_ne_flag _ "--remote-debugging-port=" _ (by decide) h
    omega
  · intro s hs
    rw [config_call_eq, List.count_append, List.count_append]
    by_cases hsp : s ∈ pre_args c
    · have c1 := count_pre_args_le_one c s hs
      have c2 : (user_extra c).count s = 0 :=
        List.count_eq_zero.mpr fun hm => (mem_user_extra hm).2 hsp
      have c3 : (tail_flags c).count s = 0 := by
        refine List.count_eq_zero.mpr fun hm => ?_
        rcases mem_tail_flags hm with h | h | h | h <;> subst h
        · exact headless_not_mem_pre c hsp
        · exact no_sandbox_not_mem_pre c hsp
        · exact host_flag_not_mem_pre c _ hsp
        · exact port_flag_not_mem_pre c _ hsp
      omega
    · have c1 : (pre_args c).count s = 0 := List.count_eq_zero.mpr hsp
      have c2 : (user_extra c).count s ≤ 1 :=
        List.nodup_iff_count_le_one.mp (hnd.filter _) s
      have c3 : (tail_flags c).count s ≤ 1 :=
        List.nodup_iff_count_le_one.mp (tail_flags_nodup c) s
      by_cases hsu : s ∈ user_extra c
      · have hb : s ∈ c.browser_args := (mem_user_extra hsu).1
        have c4 : (tail_flags c).count s = 0 := by
          refine List.count_eq_zero.mpr fun hm => ?_
          rcases mem_tail_flags hm with h | h | h | h
          · exact hhl (h ▸ hb)
          · exact hns (h ▸ hb)
          · subst h
            have h2 := hhost _ hb
            rw [startsWith_append] at h2
            simp at h2
          · subst h
            have h2 := hport _ hb
            rw [startsWith_append] at h2
            simp at h2
        omega
      · have c4 : (user_extra c).count s = 0 := List.count_eq_zero.mpr hsu
        omega

/-- C1 counterexample: on a default-constructed `Config`, the list returned by
`Config.__call__` is not duplicate-free — `--disable-session-crashed-bubble`
occurs twice.
-/
theorem c1_counterexample :
    ¬ (∀ s : String, (config_call base_config).count s ≤ 1) := by
  intro h
  have h2 := h "--disable-session-crashed-bubble"
  have h3 : (config_call base_config).count "--disable-session-crashed-bubble" = 2 := by
    decide
  omega

/-- Witness for `c1_amended_no_duplicates` at a concrete configuration. -/
theorem c1_witness :
    (config_call zcfg).count "--disable-session-crashed-bubble" = 2 ∧
    (config_call zcfg).count "--zzz" ≤ 1 :=
  ⟨(c1_amended_no_duplicates zcfg (by decide) (by decide) (by decide)
      (by decide) (by decide)).1,
   (c1_amended_no_duplicates zcfg (by decide) (by decide) (by decide)
      (by decide) (by decide)).2 "--zzz" (by decide)⟩

/-- C4 counterexample: with one user-supplied extra flag `--zzz`, the claimed
leading block (the sorted merge of the 12 defaults with the extras, here 13
strings) would contain `--zzz`, but `Config.__call__` emits the extras only
after the derived flags: `--zzz` is in the output yet not among its first 13
elements.
-/
theorem c4_counterexample :
    "--zzz" ∈ config_call zcfg ∧ "--zzz" ∉ (config_call zcfg).take 13 := by
  decide

/-- C4 (corrected).  The leading elements of `Config.__call__` are the fixed
default flags in their declaration order (not sorted, not merged with the
user extras); the derived flags (`--user-data-dir=...`, the session-recovery
suppression flag, `--disable-features=...`, the extension flags and the
expert flag) follow; the surviving user-supplied extras come only after
those, followed by the conditional trailing flags.
-/
theorem c4_amended_ordering (c : Config) :
    config_call c = default_browser_args ++
      (["--user-data-dir=" ++ c.user_data_dir,
        "--disable-session-crashed-bubble",
        "--disable-features=" ++ features_str c] ++
        (ext_flags c ++ (expert_flags c ++ (user_extra c ++ tail_flags c)))) ∧
    (config_call c).take 12 = default_browser_args := by
  have h := config_call_eq c
  constructor
  · rw [h]
    simp [pre_args, List.append_assoc]
  · rw [h]
    have h12 : (12 : Nat) = default_browser_args.length := by decide
    rw [pre_args, h12]
    simp only [List.append_assoc]
    exact List.take_left default_browser_args _

/-- C7 (confirmed).  `Config.add_argument` fails (raises `ValueError`) exactly
when the lowercased argument contains one of the reserved substrings; in
particular `--headless=new` is rejected, while `--custom-flag=1` is accepted
and then appears verbatim in the list returned by `Config.__call__`.
-/
theorem c7_add_argument_reserved :
    (∀ (c : Config) (arg : String),
        (∃ e, add_argument c arg = Except.error e) ↔
          ∃ x ∈ reserved_substrings, str_contains (str_lower arg) x = true) ∧
    (∃ e, add_argument base_config "--headless=new" = Except.error e) ∧
    (∃ c2, add_argument base_config "--custom-flag=1" = Except.ok c2 ∧
        "--custom-flag=1" ∈ config_call c2) := by
  refine ⟨?_, ?_, ?_⟩
  · intro c arg
    unfold add_argument
    split
    · rename_i hcond
      exact ⟨fun _ => List.any_eq_true.mp hcond, fun _ => ⟨_, rfl⟩⟩
    · rename_i hcond
      constructor
      · rintro ⟨e, he⟩
        simp at he
      · intro hex
        exact absurd (List.any_eq_true.mpr hex) (by simpa using hcond)
  · exact ⟨_, rfl⟩
  · refine ⟨_, rfl, ?_⟩
    decide

/-- C8 counterexample: when the directory tree holds two manifest files, the
stored source is the parent of the *last* `rglob` match, not of the first as
the claim states.
-/
theorem c8_counterexample :
    add_extension two_manifest_dir = Except.ok "/ext/b" ∧
    two_manifest_dir.manifestParents.head? = some "/ext/a" ∧
    ("/ext/b" : String) ≠ "/ext/a" := by
  refine ⟨rfl, rfl, by decide⟩

theorem foldl_keep_last {α : Type} (a : α) (l : List α) :
    l.foldl (fun _ m => m) a = l.getLastD a := by
  induction l generalizing a with
  | nil => rfl
  | cons h t ih => rw [List.foldl_cons, ih, List.getLastD_cons]

/-- C8 (corrected).  For an existing directory whose tree contains manifest
files, `Config.add_extension` stores the containing directory of the *last*
match of the recursive search; with no manifest, the original directory is
kept as-is (`getLastD` of the empty match list is the original path).
-/
theorem c8_amended_last_manifest (p : ExtPathInfo)
    (hex : p.pathExists = true) (hdir : p.isDir = true) :
    add_extension p = Except.ok (p.manifestParents.getLastD p.path) := by
  unfold add_extension
  rw [hex, hdir]
  simp [foldl_keep_last]

/-- Witness for `c8_amended_last_manifest` at a concrete directory tree. -/
theorem c8_witness :
    add_extension two_manifest_dir =
      Except.ok (two_manifest_dir.manifestParents.getLastD two_manifest_dir.path) :=
  c8_amended_last_manifest two_manifest_dir rfl rfl

/-- C9 (confirmed).  `nodriver_temp_base` and `nodriver_temp_dir` are total for
every filesystem outcome (they return a path on every branch; no exception
escapes, as the return type shows): the base is `<system-temp>/nodriver`
when its creation succeeds and the raw system temp directory otherwise, and
the named directory is the created child of the base when its creation
succeeds and the base itself otherwise.
-/
theorem c9_temp_namespace_total (tmp name : String) (o : FsOracle) :
    (nodriver_temp_base tmp o = tmp ++ "/nodriver" ∨ nodriver_temp_base tmp o = tmp) ∧
    (o.mkdirFails (tmp ++ "/nodriver") = false →
      nodriver_temp_base tmp o = tmp ++ "/nodriver") ∧
    (o.mkdirFails (tmp ++ "/nodriver") = true → nodriver_temp_base tmp o = tmp) ∧
    (nodriver_temp_dir tmp o name = nodriver_temp_base tmp o ++ "/" ++ name ∨
      nodriver_temp_dir tmp o name = nodriver_temp_base tmp o) ∧
    (o.mkdirFails (nodriver_temp_base tmp o ++ "/" ++ name) = false →
      nodriver_temp_dir tmp o name = nodriver_temp_base tmp o ++ "/" ++ name) ∧
    (o.mkdirFails (nodriver_temp_base tmp o ++ "/" ++ name) = true →
      nodriver_temp_dir tmp o name = nodriver_temp_base tmp o) := by
  by_cases hb : o.mkdirFails (tmp ++ "/nodriver") = true
  all_goals by_cases hc : o.mkdirFails (nodriver_temp_base tmp o ++ "/" ++ name) = true
  all_goals refine ⟨?_, ?_, ?_, ?_, ?_, ?_⟩
  all_goals simp_all [nodriver_temp_base, nodriver_temp_dir]

/-- Witness for `c9_temp_namespace_total`: base creation fails, so the raw
system temp directory is used, and the child is still created under it. -/
theorem c9_witness :
    nodriver_temp_base "/tmp" failing_oracle = "/tmp" ∧
    nodriver_temp_dir "/tmp" failing_oracle "profiles" =
      nodriver_temp_base "/tmp" failing_oracle ++ "/" ++ "profiles" :=
  ⟨(c9_temp_namespace_total "/tmp" "profiles" failing_oracle).2.2.1 (by decide),
   (c9_temp_namespace_total "/tmp" "profiles" failing_oracle).2.2.2.2.1 (by decide)⟩

/-- C10 (confirmed).  On POSIX, when `Config.__init__` runs as root with
`sandbox=True`, the sandbox flag is silently forced off and the argument
list returned by `Config.__call__` contains `--no-sandbox`.
-/
theorem c10_root_forces_no_sandbox (posix root : Bool) (u : String) (hdl : Bool)
    (host : String) (port : Nat) (ex : Bool) (bargs : List String)
    (hp : posix = true) (hr : root = true) :
    (config_init posix root u hdl true host port ex bargs).sandbox = false ∧
    "--no-sandbox" ∈ config_call (config_init posix root u hdl true host port ex bargs) := by
  subst hp hr
  have hs : (config_init true true u hdl true host port ex bargs).sandbox = false := by
    simp [config_init, config_init_sandbox]
  refine ⟨hs, ?_⟩
  rw [config_call_eq]
  refine List.mem_append.mpr (Or.inr (List.mem_append.mpr (Or.inr ?_)))
  unfold tail_flags
  simp [hs]

/-- Witness for `c10_root_forces_no_sandbox` at a concrete configuration. -/
theorem c10_witness :
    (config_init true true "/data" false true "" 0 false []).sandbox = false ∧
    "--no-sandbox" ∈ config_call (config_init true true "/data" false true "" 0 false []) :=
  c10_root_forces_no_sandbox true true "/data" false "" 0 false [] rfl rfl

/-! ## Stale singleton reaper: claims C2 -/

/-- The retry loop finds an active probe exactly when some attempt within the
budget reports the socket listening. -/
theorem probe_finds_active_iff (e : TempEntry) :
    ∀ (fuel i : Nat), probe_finds_active e i fuel = true ↔
      ∃ k < fuel, socket_is_listening (e.probes (i + k)) = true := by
  intro fuel
  induction fuel with
  | zero => intro i; simp [probe_finds_active]
  | succ fuel ih =>
    intro i
    simp only [probe_finds_active]
    by_cases h : socket_is_listening (e.probes i) = true
    · simp only [h, if_true]
      exact iff_of_true trivial ⟨0, by omega, by simpa using h⟩
    · rw [Bool.not_eq_true] at h
      simp only [h, Bool.false_eq_true, if_false]
      rw [ih (i + 1)]
      constructor
      · rintro ⟨k, hk, hp⟩
        exact ⟨k + 1, by omega, by rwa [show i + (k + 1) = i + 1 + k by omega]⟩
      · rintro ⟨k, hk, hp⟩
        cases k with
        | zero =>
          rw [Nat.add_zero] at hp
          rw [h] at hp
          cases hp
        | succ k =>
          exact ⟨k, by omega, by rwa [show i + 1 + k = i + (k + 1) by omega]⟩

/-- C2 counterexample: a vendor-prefixed directory whose `SingletonSocket` is
absent reports inactive on every probe attempt, yet
`cleanup_chromium_singleton_dirs` does not remove it — the iterator skips
entries without an existing `SingletonSocket`, so the directory is retained,
contradicting the claim that it is removed.
-/
theorem c2_counterexample :
    no_socket_entry.isDir = true ∧
    singleton_name_patterns.any (fun p => str_startsWith no_socket_entry.name p) = true ∧
    (∀ i, socket_is_listening (no_socket_entry.probes i) = false) ∧
    singleton_dir_removed 5 no_socket_entry = false ∧
    cleanup_chromium_singleton_dirs 5 [no_socket_entry] = [] :=
  ⟨rfl, by decide, fun _ => rfl, rfl, rfl⟩

/-- C2 (corrected).  `cleanup_chromium_singleton_dirs` removes exactly the
entries that are directories, carry a vendor name pattern, whose
`SingletonSocket` member *exists at enumeration time*, and whose socket is
inactive on every one of the `max 1 retries` probe attempts; every other
entry is retained — in particular a vendor-prefixed directory whose socket
file is already absent at enumeration is skipped and retained, not removed.
-/
theorem c2_amended_removal (retries : Nat) (entries : List TempEntry) (e : TempEntry) :
    e ∈ cleanup_chromium_singleton_dirs retries entries ↔
      e ∈ entries ∧ e.isDir = true ∧
      (∃ p ∈ singleton_name_patterns, str_startsWith e.name p = true) ∧
      e.hasSingletonSocket = true ∧
      ∀ i < max 1 retries, socket_is_listening (e.probes i) = false := by
  unfold cleanup_chromium_singleton_dirs
  rw [List.mem_filter]
  refine and_congr_right fun _ => ?_
  have hp : probe_finds_active e 0 (max 1 retries) = false ↔
      ∀ i < max 1 retries, socket_is_listening (e.probes i) = false := by
    constructor
    · intro h i hi
      cases hl : socket_is_listening (e.probes i) with
      | false => rfl
      | true =>
        have : probe_finds_active e 0 (max 1 retries) = true :=
          (probe_finds_active_iff e _ 0).mpr ⟨i, hi, by simpa using hl⟩
        rw [h] at this
        cases this
    · intro h
      cases hpa : probe_finds_active e 0 (max 1 retries) with
      | false => rfl
      | true =>
        obtain ⟨k, hk, hl⟩ := (probe_finds_active_iff e _ 0).mp hpa
        rw [Nat.zero_add] at hl
        rw [h k hk] at hl
        cases hl
  simp only [singleton_dir_removed, is_singleton_candidate, Bool.and_eq_true,
    Bool.not_eq_true', List.any_eq_true]
  rw [hp]
  tauto

/-! ## Legacy profile reaper: claim C3 -/

/-- C3 (confirmed).  A legacy `uc_` directory that is old enough and whose
literal or canonical path occurs behind `--user-data-dir` (either separator)
in the process-table snapshot is never removed by
`cleanup_legacy_uc_profile_dirs`.
-/
theorem c3_referenced_legacy_dir_retained (min_age : Rat) (ps_out : String)
    (entries : List LegacyEntry) (e : LegacyEntry)
    (_hpfx : str_startsWith e.name "uc_" = true)
    (_hage : min_age ≤ legacy_age e min_age)
    (href : ∃ n ∈ user_data_dir_needles e, str_contains ps_out n = true) :
    e ∉ cleanup_legacy_uc_profile_dirs min_age ps_out entries := by
  intro hm
  have hrem := (List.mem_filter.mp hm).2
  obtain ⟨n, hn, hc⟩ := href
  have hne : n.data ≠ [] := by
    have : ∀ (x : String), ("--user-data-dir=" ++ x).data ≠ [] := by
      intro x
      rw [string_data_append]
      simp
    have h2 : ∀ (x : String), ("--user-data-dir " ++ x).data ≠ [] := by
      intro x
      rw [string_data_append]
      simp
    simp only [user_data_dir_needles, List.mem_cons, List.not_mem_nil, or_false] at hn
    rcases hn with h | h | h | h <;> subst h
    · exact this _
    · exact this _
    · exact h2 _
    · exact h2 _
  have hps : ps_out.isEmpty = false := by
    cases hemp : ps_out.isEmpty with
    | false => rfl
    | true =>
      exfalso
      rw [String.isEmpty_iff] at hemp
      subst hemp
      have : n.data <:+: ("" : String).data := of_decide_eq_true hc
      exact hne (List.eq_nil_of_infix_nil this)
  have hany : (user_data_dir_needles e).any (fun m => str_contains ps_out m) = true :=
    List.any_eq_true.mpr ⟨n, hn, hc⟩
  unfold legacy_dir_removed at hrem
  rw [hps] at hrem
  simp only [Bool.false_eq_true, if_false] at hrem
  rw [hany] at hrem
  simp at hrem

/-- Witness for `c3_referenced_legacy_dir_retained`: an old, profile-shaped
`uc_` directory referenced by a live chrome command line is retained. -/
theorem c3_witness :
    live_legacy_entry ∉
      cleanup_legacy_uc_profile_dirs 120 "chrome --user-data-dir=/tmp/uc_k2d8 about:blank"
        [live_legacy_entry] :=
  c3_referenced_legacy_dir_retained 120 _ [live_legacy_entry] live_legacy_entry
    (by decide) (by norm_num [legacy_age, live_legacy_entry])
    ⟨"--user-data-dir=" ++ live_legacy_entry.path,
     by simp [user_data_dir_needles], by decide⟩

/-! ## Extension staging: claims C5 and C6 -/

/-- C5 (confirmed).  Preparing a `Config` holding one packaged extension source
twice in a row keeps at most one staged temp directory at every point of the
filesystem event trace: the first call stages `d1`; the second call removes
`d1` (via the leading `cleanup_extensions`) before creating `d2`, and ends
with exactly `d2` tracked.
-/
theorem c5_single_staged_dir (p d1 d2 : String) :
    prepare_extensions (fun _ => true) ⟨[ExtSource.file p], [], []⟩ [d1] =
      (⟨[ExtSource.file p], [d1], [d1]⟩, [FsEvent.create d1], true) ∧
    prepare_extensions (fun _ => true) ⟨[ExtSource.file p], [d1], [d1]⟩ [d2] =
      (⟨[ExtSource.file p], [d2], [d2]⟩,
        [FsEvent.remove d1, FsEvent.create d2], true) ∧
    ∀ n : Nat,
      (live_dirs (([FsEvent.create d1] ++
        [FsEvent.remove d1, FsEvent.create d2]).take n)).length ≤ 1 := by
  refine ⟨rfl, rfl, ?_⟩
  intro n
  match n with
  | 0 => simp [live_dirs]
  | 1 => simp [live_dirs]
  | 2 => simp [live_dirs]
  | (k + 3) =>
    rw [List.take_of_length_le (by simp)]
    simp [live_dirs]

/-- C6 (confirmed).  When archive extraction of the single packaged source
fails, `_prepare_extensions` removes the freshly created temp directory
(the trace ends `create tf, remove tf`), propagates the error (the `Bool`
component is `false`), and leaves no staged directory tracked — in
particular `tf` is not in the tracked set.
-/
theorem c6_extraction_failure_cleans_up (p tf : String) (ts es : List String) :
    prepare_extensions (fun _ => false) ⟨[ExtSource.file p], ts, es⟩ [tf] =
      (⟨[ExtSource.file p], [], []⟩,
        ts.map FsEvent.remove ++ [FsEvent.create tf, FsEvent.remove tf], false) ∧
    tf ∉ (prepare_extensions (fun _ => false) ⟨[ExtSource.file p], ts, es⟩ [tf]).1.temp_dirs := by
  constructor
  · rfl
  · simp [prepare_extensions, cleanup_extensions, stage_sources]
